import Mathlib

/-!
Verification of the patient-store persistence layer (routers/patients.py)
and the BMI verdict logic (routers/patients.py and practice.py).

The filesystem visible to the repository is modelled explicitly: the
primary data file, its backup file, and the temporary file used by the
atomic-write path. A file, when present, either parses as JSON or is
corrupt; a parsed value is either a JSON object (modelled as a Store,
the mapping from patient identifier to record) or some non-object JSON
value (a list or scalar). I/O failures during save are modelled by an
injected failure point naming the step at which the underlying call
raises.
-/

/-- Gender enumeration from the Patient model (male / female / other). -/
inductive Gender
| male
| female
| other
deriving DecidableEq, Repr

/-- A stored patient record: the value part of one Store entry, with the
fields name, city, age, gender, height (meters), weight (kilograms).
Numeric fields are modelled as exact rationals. -/
structure PatientRec where
  name : String
  city : String
  age : Int
  gender : Gender
  height : ℚ
  weight : ℚ
deriving DecidableEq, Repr

/-- The Store: a mapping from patient identifier to record, persisted as
the entire content of the primary file. Modelled as an association list. -/
abbrev Store := List (String × PatientRec)

/-- A parsed JSON value at the granularity the repository inspects it:
either a JSON object deserializing to a Store, or some non-object value
(a list or a scalar), which fails the isinstance-dict check. -/
inductive JVal
| obj (s : Store)
| nonObj
deriving DecidableEq, Repr

/-- The content of one on-disk file: either bytes that parse as JSON to
the value carried, or bytes that fail to parse (corrupt). -/
inductive FileData
| parsed (v : JVal)
| corrupt
deriving DecidableEq, Repr

/-- The filesystem state the repository touches: the primary data file
(DATA_FILE), the backup file (DATA_FILE plus a backup suffix), and the
temporary file used by save. A field is none when the file is absent. -/
structure FS where
  primary : Option FileData
  backup : Option FileData
  temp : Option FileData
deriving DecidableEq, Repr

/-- Failure injection for save_patients: nofail means every I/O call
succeeds; atBackup means shutil.copy2 inside the backup step raises;
atWrite means writing the temporary file raises after open created it;
atRename means os.replace raises. -/
inductive FailPoint
| nofail
| atBackup
| atWrite
| atRename
deriving DecidableEq, Repr

/-- Observable outcome of save_patients: returned True, returned False,
or escaped with an uncaught exception carrying the given name. -/
inductive SaveOutcome
| ok
| failed
| raised (exn : String)
deriving DecidableEq, Repr

/-- PatientRepository: if the primary file exists, copy it over the
backup location; otherwise do nothing. -/
def create_backup (fs : FS) : FS :=
  match fs.primary with
  | some d => { fs with backup := some d }
  | none => fs

/-- PatientRepository: if the backup file exists, copy it over the
primary and report success; otherwise report failure. -/
def restore_backup (fs : FS) : FS × Bool :=
  match fs.backup with
  | some d => ({ fs with primary := some d }, true)
  | none => (fs, false)

/-- PatientRepository.load_patients. Missing primary gives the empty
object. A primary parsing to a JSON object is returned. If parsing fails
or the parsed value is not an object, the backup is copied over the
primary and re-read; note that on this recovery path the source performs
no dict check on the re-read value, and a corrupt backup falls through
to the empty object. -/
def load_patients (fs : FS) : FS × JVal :=
  match fs.primary with
  | none => (fs, JVal.obj [])
  | some (FileData.parsed (JVal.obj s)) => (fs, JVal.obj s)
  | some _ =>
    let rb := restore_backup fs
    if rb.2 then
      match rb.1.primary with
      | some (FileData.parsed v) => (rb.1, v)
      | _ => (rb.1, JVal.obj [])
    else (rb.1, JVal.obj [])

/-- PatientRepository.save_patients, serializing the value it is given.
The backup step runs first; the temp-file assignment in the source comes
after it, so an I/O failure raised by the backup copy reaches the except
handler with the temp-file variable still unassigned, and the handler
itself raises UnboundLocalError, which is not caught. A failure while
writing the temporary file or while renaming is caught: the handler
removes the temporary file and the function returns False. On success
the rename installs the new content as the primary and consumes the
temporary file. -/
def save_patients (fs : FS) (v : JVal) (fp : FailPoint) : FS × SaveOutcome :=
  if fp = FailPoint.atBackup ∧ fs.primary.isSome then
    (fs, SaveOutcome.raised "UnboundLocalError")
  else
    let fs1 := create_backup fs
    if fp = FailPoint.atWrite then
      ({ fs1 with temp := none }, SaveOutcome.failed)
    else
      let fs2 := { fs1 with temp := some (FileData.parsed v) }
      if fp = FailPoint.atRename then
        ({ fs2 with temp := none }, SaveOutcome.failed)
      else
        ({ fs2 with primary := some (FileData.parsed v), temp := none },
          SaveOutcome.ok)

/-- The structured result produced by ToolResultFormatter.format, kept at
the granularity the claims need: the payload command, stderr, exitCode
and success fields. -/
structure ToolResult where
  command : String
  stderr : String
  exitCode : Int
  success : Bool
deriving DecidableEq, Repr

/-- ToolResultFormatter.format: success is derived from the exit code. -/
def formatResult (command stderr : String) (exit_code : Int) : ToolResult :=
  { command := command, stderr := stderr, exitCode := exit_code,
    success := exit_code == 0 }

/-- The err helper: an error response with exit code 1. -/
def err (command message : String) : ToolResult :=
  formatResult command message 1

/-- Python str.replace applied to turn every underscore into a space, as
transaction_safe does to the wrapped function's name. -/
def replaceUnderscores (s : String) : String :=
  String.mk (s.data.map (fun c => if c = '_' then ' ' else c))

/-- What a call wrapped by transaction_safe can produce: the wrapped
function's own return value, or the structured failure built by err. -/
inductive Response (α : Type)
| normal (r : α)
| failure (t : ToolResult)
deriving DecidableEq, Repr

/-- The transaction_safe decorator: snapshot the store via load_patients,
run the wrapped function; if it raises, write the snapshot back via
save_patients and return the err result whose command is the function
name with underscores turned into spaces. The wrapped function is
modelled as a state transformer that either returns a value or raises a
message. -/
def transaction_safe {α : Type} (name : String)
    (func : FS → FS × Except String α) (fs : FS) : FS × Response α :=
  let p := load_patients fs
  match func p.1 with
  | (fs1, Except.ok r) => (fs1, Response.normal r)
  | (fs1, Except.error e) =>
    ((save_patients fs1 p.2 FailPoint.nofail).1,
      Response.failure (err (replaceUnderscores name) ("Operation failed: " ++ e)))

/-- Rounding to two decimal places, as round(x, 2) over exact rationals
(ties, which Python resolves to even, do not arise in any claim here). -/
def roundTo2 (q : ℚ) : ℚ := (round (q * 100) : ℤ) / 100

/-- Patient.BMI from routers/patients.py: zero when height is not
positive, otherwise weight over height squared rounded to two decimals. -/
def BMI (weight height : ℚ) : ℚ :=
  if height ≤ 0 then 0 else roundTo2 (weight / height ^ 2)

/-- Patient.verdict from routers/patients.py: the BMI category chain with
an Invalid BMI guard for non-positive values. -/
def verdict (bmi : ℚ) : String :=
  if bmi ≤ 0 then "Invalid BMI"
  else if bmi < 18.5 then "Underweight"
  else if 18.5 ≤ bmi ∧ bmi < 24.9 then "Normal weight"
  else if 25 ≤ bmi ∧ bmi < 29.9 then "Overweight"
  else "Obesity"

/-- Patient.verdict from practice.py: the same chain without the
non-positive guard. -/
def practiceVerdict (bmi : ℚ) : String :=
  if bmi < 18.5 then "Underweight"
  else if 18.5 ≤ bmi ∧ bmi < 24.9 then "Normal weight"
  else if 25 ≤ bmi ∧ bmi < 29.9 then "Overweight"
  else "Obesity"

/-- The single-entry store of the spec's example scenario. -/
def exampleRec : PatientRec :=
  { name := "A", city := "X", age := 30, gender := Gender.male,
    height := 1.8, weight := 80.0 }

/-- The example Store mapping P001 to the example record. -/
def exampleStore : Store := [("P001", exampleRec)]

example : (load_patients ⟨none, none, none⟩).2 = JVal.obj [] := rfl

example :
    (save_patients ⟨none, none, none⟩ (JVal.obj exampleStore) FailPoint.nofail).2
      = SaveOutcome.ok := rfl

/-- Helper: a save with no injected failure reports success and installs
the serialized value as the primary file. -/
theorem save_nofail_eq (fs : FS) (v : JVal) :
    save_patients fs v FailPoint.nofail
      = ({ primary := some (FileData.parsed v),
           backup := (create_backup fs).backup, temp := none }, SaveOutcome.ok) := by
  rcases fs with ⟨p, b, t⟩
  cases p <;> rfl

/-- Helper: loading right after a no-failure save of a JSON object
returns exactly that object. -/
theorem load_after_save_nofail (fs : FS) (s : Store) :
    (load_patients (save_patients fs (JVal.obj s) FailPoint.nofail).1).2
      = JVal.obj s := by
  rw [save_nofail_eq]
  rfl

/-- Helper: when the primary file exists, the backup step of a
no-failure save copies its content to the backup location. -/
theorem save_nofail_backup (fs : FS) (v : JVal) (d : FileData)
    (h : fs.primary = some d) :
    (save_patients fs v FailPoint.nofail).1.backup = some d := by
  rw [save_nofail_eq]
  rcases fs with ⟨p, b, t⟩
  cases p with
  | none => cases h
  | some d' => cases h; rfl

/-- C1: the claim says every I/O failure during save, the backup-copy
step included, yields a False return without raising. At the failing
input below (primary present, copy2 raising), the except handler reads
the still-unassigned temp-file variable and the call escapes with
UnboundLocalError instead of returning False. -/
theorem c1_save_backup_failure_raises :
    save_patients ⟨some (FileData.parsed (JVal.obj [])), none, none⟩
        (JVal.obj exampleStore) FailPoint.atBackup
      = (⟨some (FileData.parsed (JVal.obj [])), none, none⟩,
         SaveOutcome.raised "UnboundLocalError")
    ∧ (save_patients ⟨some (FileData.parsed (JVal.obj [])), none, none⟩
        (JVal.obj exampleStore) FailPoint.atBackup).2 ≠ SaveOutcome.failed := by
  refine ⟨rfl, ?_⟩
  decide

/-- C2 counterexample: starting from no primary and no backup, after the
first successful save the backup file does not exist at all, so it does
not contain the empty store as the claim asserts. -/
theorem c2_first_save_leaves_no_backup :
    ((save_patients ⟨none, none, none⟩ (JVal.obj exampleStore)
        FailPoint.nofail).1).backup = none
    ∧ ((save_patients ⟨none, none, none⟩ (JVal.obj exampleStore)
        FailPoint.nofail).1).backup
        ≠ some (FileData.parsed (JVal.obj [])) := by
  refine ⟨rfl, ?_⟩
  intro h
  cases h

/-- C2 amended: from a state with neither primary nor backup, load gives
the empty store, saving the example store succeeds, a subsequent load
returns exactly that store, and no backup file exists after this first
save, because the backup copy only runs when the primary file exists. -/
theorem c2_first_save_scenario :
    (load_patients ⟨none, none, none⟩).2 = JVal.obj []
    ∧ (save_patients ⟨none, none, none⟩ (JVal.obj exampleStore)
        FailPoint.nofail).2 = SaveOutcome.ok
    ∧ (load_patients (save_patients ⟨none, none, none⟩ (JVal.obj exampleStore)
        FailPoint.nofail).1).2 = JVal.obj exampleStore
    ∧ (save_patients ⟨none, none, none⟩ (JVal.obj exampleStore)
        FailPoint.nofail).1.backup = none :=
  ⟨rfl, rfl, rfl, rfl⟩

/-- C3: the claim says load always returns a mapping, the recovery path
included. At the failing input below (corrupt primary, backup parsing to
a non-object JSON value) the recovery re-read returns the backup's value
without a dict check, so the result is not a mapping. -/
theorem c3_recovery_returns_non_mapping :
    (load_patients ⟨some FileData.corrupt,
        some (FileData.parsed JVal.nonObj), none⟩).2 = JVal.nonObj
    ∧ ∀ s : Store,
        (load_patients ⟨some FileData.corrupt,
            some (FileData.parsed JVal.nonObj), none⟩).2 ≠ JVal.obj s := by
  refine ⟨rfl, ?_⟩
  intro s h
  cases h

/-- C4: with a corrupt primary and a backup holding valid Store B, load
returns B and overwrites the primary with B's content. -/
theorem c4_corruption_recovery (B : Store) (t : Option FileData) :
    load_patients ⟨some FileData.corrupt,
        some (FileData.parsed (JVal.obj B)), t⟩
      = (⟨some (FileData.parsed (JVal.obj B)),
          some (FileData.parsed (JVal.obj B)), t⟩, JVal.obj B) := rfl

/-- C8: when neither the primary nor the backup file exists, load
returns the empty store (and, being a total function here, raises
nothing). -/
theorem c8_empty_on_missing (t : Option FileData) :
    load_patients ⟨none, none, t⟩ = (⟨none, none, t⟩, JVal.obj []) := rfl

/-- C5: after two consecutive successful saves of S1 then S2 with no
intervening operation, both saves report success, the backup file holds
S1 (the pre-save state of the second save) and the primary holds S2. -/
theorem c5_backup_generation (fs : FS) (S1 S2 : Store) :
    (save_patients fs (JVal.obj S1) FailPoint.nofail).2 = SaveOutcome.ok
    ∧ (save_patients (save_patients fs (JVal.obj S1) FailPoint.nofail).1
        (JVal.obj S2) FailPoint.nofail).2 = SaveOutcome.ok
    ∧ (save_patients (save_patients fs (JVal.obj S1) FailPoint.nofail).1
        (JVal.obj S2) FailPoint.nofail).1.backup
        = some (FileData.parsed (JVal.obj S1))
    ∧ (save_patients (save_patients fs (JVal.obj S1) FailPoint.nofail).1
        (JVal.obj S2) FailPoint.nofail).1.primary
        = some (FileData.parsed (JVal.obj S2)) := by
  refine ⟨?_, ?_, ?_, ?_⟩ <;> simp [save_nofail_eq, create_backup]

/-- C6: a successful save of Store S followed immediately by a load
returns a Store equal to S, whatever the starting filesystem state and
whichever failure point was armed (the hypothesis discharges the armed
cases that prevent success). -/
theorem c6_round_trip (fs : FS) (S : Store) (fp : FailPoint)
    (h : (save_patients fs (JVal.obj S) fp).2 = SaveOutcome.ok) :
    (load_patients (save_patients fs (JVal.obj S) fp).1).2 = JVal.obj S := by
  rcases fs with ⟨p, b, t⟩
  cases fp <;> cases p <;>
    first
      | exact load_after_save_nofail _ _
      | rfl
      | simp [save_patients] at h

/-- C6 witness: the round trip evaluated at the example store from the
empty filesystem state. -/
theorem c6_round_trip_witness :
    (save_patients ⟨none, none, none⟩ (JVal.obj exampleStore)
        FailPoint.nofail).2 = SaveOutcome.ok
    ∧ (load_patients (save_patients ⟨none, none, none⟩
        (JVal.obj exampleStore) FailPoint.nofail).1).2
        = JVal.obj exampleStore :=
  ⟨rfl, c6_round_trip ⟨none, none, none⟩ exampleStore FailPoint.nofail rfl⟩

/-- A wrapped function that raises at once, used to evaluate
transaction_safe at a concrete input. -/
def cexMutator : FS → FS × Except String Unit :=
  fun st => (st, Except.error "boom")

/-- A concrete filesystem whose primary holds the example store. -/
def cexFS : FS := ⟨some (FileData.parsed (JVal.obj exampleStore)), none, none⟩

/-- C7 counterexample: wrapping the operation named create_patient, the
failure result's command field is the string with the underscore turned
into a space, which is not the operation name itself. -/
theorem c7_command_not_operation_name :
    (transaction_safe "create_patient" cexMutator cexFS).2
      = Response.failure (err "create patient" "Operation failed: boom")
    ∧ "create patient" ≠ "create_patient" := by
  refine ⟨?_, ?_⟩ <;> decide

/-- C7 amended: for every wrapped operation and every mutator that
raises, when the pre-call load yields Store s, the wrapper leaves the
persisted Store at s, returns normally rather than propagating, and
hands back the structured failure whose command is the operation name
with underscores replaced by spaces. -/
theorem c7_rollback_on_mutation_failure {α : Type} (name : String)
    (func : FS → FS × Except String α) (fs fs1 : FS) (e : String) (s : Store)
    (h1 : (load_patients fs).2 = JVal.obj s)
    (h2 : func (load_patients fs).1 = (fs1, Except.error e)) :
    (load_patients (transaction_safe name func fs).1).2 = JVal.obj s
    ∧ (transaction_safe name func fs).2
        = Response.failure (err (replaceUnderscores name)
            ("Operation failed: " ++ e)) := by
  simp only [transaction_safe]
  rw [h2, h1]
  exact ⟨load_after_save_nofail _ _, rfl⟩

/-- C7 witness: the amended rollback statement evaluated at the
operation name create_patient, an at-once-raising mutator, and a primary
holding the example store. -/
theorem c7_rollback_witness :
    (load_patients (transaction_safe "create_patient" cexMutator cexFS).1).2
      = JVal.obj exampleStore
    ∧ (transaction_safe "create_patient" cexMutator cexFS).2
      = Response.failure (err (replaceUnderscores "create_patient")
          ("Operation failed: " ++ "boom")) :=
  c7_rollback_on_mutation_failure "create_patient" cexMutator cexFS cexFS
    "boom" exampleStore rfl rfl

/-- A wrapped function that persists the modified store M via a
successful save and then raises with message e. -/
def persistThenRaise (M : Store) (e : String) : FS → FS × Except String Unit :=
  fun st => ((save_patients st (JVal.obj M) FailPoint.nofail).1, Except.error e)

/-- C9: when the wrapped mutator persists modified store M and then
raises, the completed rollback leaves the primary holding the pre-call
snapshot, while the backup file holds the aborted store M — and hence
not the pre-call snapshot, whenever M differs from it. -/
theorem c9_rollback_backup_aborted (name e : String) (M : Store) (fs : FS)
    (h : JVal.obj M ≠ (load_patients fs).2) :
    (transaction_safe name (persistThenRaise M e) fs).1.primary
      = some (FileData.parsed (load_patients fs).2)
    ∧ (transaction_safe name (persistThenRaise M e) fs).1.backup
      = some (FileData.parsed (JVal.obj M))
    ∧ (transaction_safe name (persistThenRaise M e) fs).1.backup
      ≠ some (FileData.parsed (load_patients fs).2) := by
  have key : (transaction_safe name (persistThenRaise M e) fs).1
      = { primary := some (FileData.parsed (load_patients fs).2),
          backup := some (FileData.parsed (JVal.obj M)), temp := none } := by
    simp only [transaction_safe, persistThenRaise]
    rw [save_nofail_eq, save_nofail_eq]
    simp [create_backup]
  refine ⟨by rw [key], by rw [key], ?_⟩
  rw [key]
  simpa using h

/-- C9 witness: the rollback evaluated from the empty filesystem with
the example store as the aborted modified store. -/
theorem c9_rollback_aborted_witness :
    (transaction_safe "delete_patient" (persistThenRaise exampleStore "down")
        ⟨none, none, none⟩).1.primary
      = some (FileData.parsed (load_patients ⟨none, none, none⟩).2)
    ∧ (transaction_safe "delete_patient" (persistThenRaise exampleStore "down")
        ⟨none, none, none⟩).1.backup
      = some (FileData.parsed (JVal.obj exampleStore))
    ∧ (transaction_safe "delete_patient" (persistThenRaise exampleStore "down")
        ⟨none, none, none⟩).1.backup
      ≠ some (FileData.parsed (load_patients ⟨none, none, none⟩).2) :=
  c9_rollback_backup_aborted "delete_patient" "down" exampleStore
    ⟨none, none, none⟩ (by decide)

/-- C10: a computed BMI in the half-open interval from 24.9 up to but
excluding 25 falls through every branch condition and both verdict
chains answer Obesity. -/
theorem c10_bmi_gap_is_obesity (w h : ℚ)
    (h1 : 24.9 ≤ BMI w h) (h2 : BMI w h < 25) :
    verdict (BMI w h) = "Obesity" ∧ practiceVerdict (BMI w h) = "Obesity" := by
  have h0 : ¬ (BMI w h ≤ 0) := by
    intro hc
    have hcontra : (24.9 : ℚ) ≤ 0 := le_trans h1 hc
    norm_num at hcontra
  have hU : ¬ (BMI w h < 18.5) := by
    intro hc
    have hcontra : (24.9 : ℚ) < 18.5 := lt_of_le_of_lt h1 hc
    norm_num at hcontra
  have hN : ¬ (18.5 ≤ BMI w h ∧ BMI w h < 24.9) := by
    rintro ⟨-, hc⟩
    exact absurd h1 (not_le_of_lt hc)
  have hO : ¬ (25 ≤ BMI w h ∧ BMI w h < 29.9) := by
    rintro ⟨hc, -⟩
    exact absurd h2 (not_lt_of_le hc)
  constructor
  · unfold verdict
    rw [if_neg h0, if_neg hU, if_neg hN, if_neg hO]
  · unfold practiceVerdict
    rw [if_neg hU, if_neg hN, if_neg hO]

/-- C10 witness: weight 99.8 and height 2 give BMI 24.95, inside the
uncovered interval, and both verdict chains answer Obesity there. -/
theorem c10_bmi_gap_witness :
    (24.9 : ℚ) ≤ BMI 99.8 2 ∧ BMI 99.8 2 < 25
    ∧ verdict (BMI 99.8 2) = "Obesity"
    ∧ practiceVerdict (BMI 99.8 2) = "Obesity" := by
  have hle : (24.9 : ℚ) ≤ BMI 99.8 2 := by
    norm_num [BMI, roundTo2, round_eq]
  have hlt : BMI 99.8 2 < 25 := by
    norm_num [BMI, roundTo2, round_eq]
  exact ⟨hle, hlt, (c10_bmi_gap_is_obesity 99.8 2 hle hlt).1,
    (c10_bmi_gap_is_obesity 99.8 2 hle hlt).2⟩
